import Mathlib

/-!
Verification development for the creature-battle core of the Pokemon_Yudu_MUD
repository.  Each module of the TypeScript source that the specification
claims talk about is shallowly embedded here:

* `Experience`      — src/constants/experience.ts
* `TypeUtils`       — src/game/typeUtils.ts
* `Natures`         — src/constants/natures.ts
* `PokemonUtils`    — src/game/pokemonUtils.ts
* `PokemonManager`  — src/game/pokemonManager.ts
* `BattleManager`   — src/game/battleManager.ts
* `BattleCalculations` — the battleCalculations module (bundled in the repo
  next to worldManager.ts; imported by battleCapture.ts)
* `BattleCapture`   — src/game/battleCapture.ts
* `TrainingManager` — src/game/trainingManager.ts

JavaScript `number` arithmetic is modelled with exact rationals (`ℚ`) and
`Int.floor` for `Math.floor`; machine-level floating point rounding is not
modelled.  `Math.random()` draws are passed in as explicit parameters.
-/

/-- JavaScript `String.prototype.toLowerCase`, modelled over the character
list (ASCII case mapping, which covers every identifier the repository
uses). -/
def jsToLowerCase (s : String) : String :=
  String.mk (s.data.map Char.toLower)

namespace Experience

/-- The four experience growth curves of src/constants/experience.ts. -/
inductive ExperienceGroup where
  | fast
  | medium_fast
  | medium_slow
  | slow
deriving DecidableEq, Repr

open ExperienceGroup

/-- The per-curve cubic formula inside the `switch` of
`getTotalExperienceForLevel` (before the final `Math.max(0, ·)`), applied to
the already-clamped level `n`. -/
def groupFormula (group : ExperienceGroup) (n : ℤ) : ℤ :=
  match group with
  | fast => Int.floor ((4 * (n : ℚ) ^ 3) / 5)
  | medium_fast => Int.floor ((n : ℚ) ^ 3)
  | medium_slow => Int.floor (6 / 5 * (n : ℚ) ^ 3 - 15 * (n : ℚ) ^ 2 + 100 * (n : ℚ) - 140)
  | slow => Int.floor ((5 * (n : ℚ) ^ 3) / 4)

/-- `getTotalExperienceForLevel` from src/constants/experience.ts:
levels `≤ 1` need 0 total XP, levels above 100 are capped at 100, and the
result of the growth-curve formula is clamped below by 0. -/
def getTotalExperienceForLevel (group : ExperienceGroup) (level : ℤ) : ℤ :=
  if level ≤ 1 then 0
  else
    let n : ℤ := if 100 < level then 100 else level
    max 0 (groupFormula group n)

end Experience

namespace TypeUtils

/-- One row of the `TypeChart` constant of src/game/typeUtils.ts: the list of
(defending type, multiplier) pairs for a given attacking type, or `none` when
the attacking type is not a key of the chart.  The chart has the 18 Chinese
type rows and the five partial English rows present in the source. -/
def chartRow (attackingType : String) : Option (List (String × ℚ)) :=
  match attackingType with
  | "一般" => some [("一般", 1), ("格斗", 1), ("飞行", 1), ("毒", 1), ("地面", 1), ("岩石", 1/2), ("虫", 1), ("幽灵", 0), ("钢", 1/2), ("火", 1), ("水", 1), ("草", 1), ("电", 1), ("超能力", 1), ("冰", 1), ("龙", 1), ("恶", 1), ("妖精", 1)]
  | "格斗" => some [("一般", 2), ("格斗", 1), ("飞行", 1/2), ("毒", 1/2), ("地面", 1), ("岩石", 2), ("虫", 1/2), ("幽灵", 0), ("钢", 2), ("火", 1), ("水", 1), ("草", 1), ("电", 1), ("超能力", 1/2), ("冰", 2), ("龙", 1), ("恶", 2), ("妖精", 1/2)]
  | "飞行" => some [("一般", 1), ("格斗", 2), ("飞行", 1), ("毒", 1), ("地面", 1), ("岩石", 1/2), ("虫", 2), ("幽灵", 1), ("钢", 1/2), ("火", 1), ("水", 1), ("草", 2), ("电", 1/2), ("超能力", 1), ("冰", 1), ("龙", 1), ("恶", 1), ("妖精", 1)]
  | "毒" => some [("一般", 1), ("格斗", 1), ("飞行", 1), ("毒", 1/2), ("地面", 1/2), ("岩石", 1/2), ("虫", 1), ("幽灵", 1/2), ("钢", 0), ("火", 1), ("水", 1), ("草", 2), ("电", 1), ("超能力", 1), ("冰", 1), ("龙", 1), ("恶", 1), ("妖精", 2)]
  | "地面" => some [("一般", 1), ("格斗", 1), ("飞行", 0), ("毒", 2), ("地面", 1), ("岩石", 2), ("虫", 1/2), ("幽灵", 1), ("钢", 2), ("火", 2), ("水", 1), ("草", 1/2), ("电", 2), ("超能力", 1), ("冰", 1), ("龙", 1), ("恶", 1), ("妖精", 1)]
  | "岩石" => some [("一般", 1), ("格斗", 1/2), ("飞行", 2), ("毒", 1), ("地面", 1/2), ("岩石", 1), ("虫", 2), ("幽灵", 1), ("钢", 1/2), ("火", 2), ("水", 1), ("草", 1), ("电", 1), ("超能力", 1), ("冰", 2), ("龙", 1), ("恶", 1), ("妖精", 1)]
  | "虫" => some [("一般", 1), ("格斗", 1/2), ("飞行", 1/2), ("毒", 1/2), ("地面", 1), ("岩石", 1), ("虫", 1), ("幽灵", 1/2), ("钢", 1/2), ("火", 1/2), ("水", 1), ("草", 2), ("电", 1), ("超能力", 2), ("冰", 1), ("龙", 1), ("恶", 2), ("妖精", 1/2)]
  | "幽灵" => some [("一般", 0), ("格斗", 1), ("飞行", 1), ("毒", 1), ("地面", 1), ("岩石", 1), ("虫", 1), ("幽灵", 2), ("钢", 1), ("火", 1), ("水", 1), ("草", 1), ("电", 1), ("超能力", 2), ("冰", 1), ("龙", 1), ("恶", 1/2), ("妖精", 1)]
  | "钢" => some [("一般", 1), ("格斗", 1), ("飞行", 1), ("毒", 1), ("地面", 1), ("岩石", 2), ("虫", 1), ("幽灵", 1), ("钢", 1/2), ("火", 1/2), ("水", 1/2), ("草", 1), ("电", 1/2), ("超能力", 1), ("冰", 2), ("龙", 1), ("恶", 1), ("妖精", 2)]
  | "火" => some [("一般", 1), ("格斗", 1), ("飞行", 1), ("毒", 1), ("地面", 1), ("岩石", 1/2), ("虫", 2), ("幽灵", 1), ("钢", 2), ("火", 1/2), ("水", 1/2), ("草", 2), ("电", 1), ("超能力", 1), ("冰", 2), ("龙", 1/2), ("恶", 1), ("妖精", 1)]
  | "水" => some [("一般", 1), ("格斗", 1), ("飞行", 1), ("毒", 1), ("地面", 2), ("岩石", 2), ("虫", 1), ("幽灵", 1), ("钢", 1), ("火", 2), ("水", 1/2), ("草", 1/2), ("电", 1), ("超能力", 1), ("冰", 1), ("龙", 1/2), ("恶", 1), ("妖精", 1)]
  | "草" => some [("一般", 1), ("格斗", 1), ("飞行", 1/2), ("毒", 1/2), ("地面", 2), ("岩石", 2), ("虫", 1/2), ("幽灵", 1), ("钢", 1/2), ("火", 1/2), ("水", 2), ("草", 1/2), ("电", 1), ("超能力", 1), ("冰", 1), ("龙", 1/2), ("恶", 1), ("妖精", 1)]
  | "电" => some [("一般", 1), ("格斗", 1), ("飞行", 2), ("毒", 1), ("地面", 0), ("岩石", 1), ("虫", 1), ("幽灵", 1), ("钢", 1), ("火", 1), ("水", 2), ("草", 1/2), ("电", 1/2), ("超能力", 1), ("冰", 1), ("龙", 1/2), ("恶", 1), ("妖精", 1)]
  | "超能力" => some [("一般", 1), ("格斗", 2), ("飞行", 1), ("毒", 2), ("地面", 1), ("岩石", 1), ("虫", 1), ("幽灵", 1), ("钢", 1/2), ("火", 1), ("水", 1), ("草", 1), ("电", 1), ("超能力", 1/2), ("冰", 1), ("龙", 1), ("恶", 0), ("妖精", 1)]
  | "冰" => some [("一般", 1), ("格斗", 1), ("飞行", 2), ("毒", 1), ("地面", 2), ("岩石", 1), ("虫", 1), ("幽灵", 1), ("钢", 1/2), ("火", 1/2), ("水", 1/2), ("草", 2), ("电", 1), ("超能力", 1), ("冰", 1/2), ("龙", 2), ("恶", 1), ("妖精", 1)]
  | "龙" => some [("一般", 1), ("格斗", 1), ("飞行", 1), ("毒", 1), ("地面", 1), ("岩石", 1), ("虫", 1), ("幽灵", 1), ("钢", 1/2), ("火", 1), ("水", 1), ("草", 1), ("电", 1), ("超能力", 1), ("冰", 1), ("龙", 2), ("恶", 1), ("妖精", 0)]
  | "恶" => some [("一般", 1), ("格斗", 1/2), ("飞行", 1), ("毒", 1), ("地面", 1), ("岩石", 1), ("虫", 1), ("幽灵", 2), ("钢", 1), ("火", 1), ("水", 1), ("草", 1), ("电", 1), ("超能力", 2), ("冰", 1), ("龙", 1), ("恶", 1/2), ("妖精", 1/2)]
  | "妖精" => some [("一般", 1), ("格斗", 2), ("飞行", 1), ("毒", 1/2), ("地面", 1), ("岩石", 1), ("虫", 1), ("幽灵", 1), ("钢", 1/2), ("火", 1/2), ("水", 1), ("草", 1), ("电", 1), ("超能力", 1), ("冰", 1), ("龙", 2), ("恶", 2), ("妖精", 1)]
  | "Normal" => some [("Normal", 1), ("Fighting", 1), ("Flying", 1), ("Poison", 1), ("Ground", 1), ("Rock", 1/2), ("Bug", 1), ("Ghost", 0), ("Steel", 1/2), ("Fire", 1), ("Water", 1), ("Grass", 1), ("Electric", 1), ("Psychic", 1), ("Ice", 1), ("Dragon", 1), ("Dark", 1), ("Fairy", 1)]
  | "Fighting" => some [("Normal", 2), ("Fighting", 1), ("Flying", 1/2), ("Poison", 1/2), ("Ground", 1), ("Rock", 2), ("Bug", 1/2), ("Ghost", 0), ("Steel", 2), ("Fire", 1), ("Water", 1), ("Grass", 1), ("Electric", 1), ("Psychic", 1/2), ("Ice", 2), ("Dragon", 1), ("Dark", 2), ("Fairy", 1/2)]
  | "Flying" => some [("Normal", 1), ("Fighting", 2), ("Flying", 1), ("Poison", 1), ("Ground", 1), ("Rock", 1/2), ("Bug", 2), ("Ghost", 1), ("Steel", 1/2), ("Fire", 1), ("Water", 1), ("Grass", 2), ("Electric", 1/2), ("Psychic", 1), ("Ice", 1), ("Dragon", 1), ("Dark", 1), ("Fairy", 1)]
  | "Poison" => some [("Normal", 1), ("Fighting", 1), ("Flying", 1), ("Poison", 1/2), ("Ground", 1/2), ("Rock", 1/2), ("Bug", 1), ("Ghost", 1/2), ("Steel", 0), ("Fire", 1), ("Water", 1), ("Grass", 2), ("Electric", 1), ("Psychic", 1), ("Ice", 1), ("Dragon", 1), ("Dark", 1), ("Fairy", 2)]
  | "Ground" => some [("Normal", 1), ("Fighting", 1), ("Flying", 0), ("Poison", 2), ("Ground", 1), ("Rock", 2), ("Bug", 1/2), ("Ghost", 1), ("Steel", 2), ("Fire", 2), ("Water", 1), ("Grass", 1/2), ("Electric", 2), ("Psychic", 1), ("Ice", 1), ("Dragon", 1), ("Dark", 1), ("Fairy", 1)]
  | _ => none

/-- `TypeChart[attackingType][defendingType]`, `none` when either the row or
the entry is missing (the `!== undefined` test in the source). -/
def typeChartLookup (attackingType defendingType : String) : Option ℚ :=
  match chartRow attackingType with
  | none => none
  | some row => row.lookup defendingType

/-- `getTypeEffectiveness` from src/game/typeUtils.ts: an empty defender list
returns the neutral multiplier 1; otherwise each defending type whose pairing
is present in the chart multiplies the accumulator, and a missing pairing is
skipped (contributing factor 1). -/
def getTypeEffectiveness (attackType : String) (defenderTypes : List String) : ℚ :=
  if defenderTypes.isEmpty then 1
  else
    defenderTypes.foldl
      (fun acc defenderType =>
        match typeChartLookup attackType defenderType with
        | some v => acc * v
        | none => acc)
      1

end TypeUtils

namespace Experience

theorem groupFormula_mono (g : ExperienceGroup) {a b : ℤ} (h0 : 0 ≤ a) (hab : a ≤ b) :
    groupFormula g a ≤ groupFormula g b := by
  have hq : (a : ℚ) ≤ (b : ℚ) := by exact_mod_cast hab
  have hq0 : (0 : ℚ) ≤ (a : ℚ) := by exact_mod_cast h0
  have hcube : (a : ℚ) ^ 3 ≤ (b : ℚ) ^ 3 := pow_le_pow_left₀ hq0 hq 3
  cases g with
  | fast => exact Int.floor_le_floor (by linarith)
  | medium_fast => exact Int.floor_le_floor hcube
  | medium_slow =>
      refine Int.floor_le_floor ?_
      nlinarith [mul_nonneg (sub_nonneg.mpr hq) (sq_nonneg (2 * ((a : ℚ) + (b : ℚ)) - 25)),
        mul_nonneg (sub_nonneg.mpr hq) (sq_nonneg (a : ℚ)),
        mul_nonneg (sub_nonneg.mpr hq) (sq_nonneg (b : ℚ))]
  | slow => exact Int.floor_le_floor (by linarith)

/-- **C5**: for every growth curve, `getTotalExperienceForLevel` is
monotonically non-decreasing in the level; it returns 0 for every level ≤ 1
and the level-100 value for every level above 100. -/
theorem getTotalExperienceForLevel_props (g : ExperienceGroup) (l1 l2 : ℤ) (h : l1 ≤ l2) :
    getTotalExperienceForLevel g l1 ≤ getTotalExperienceForLevel g l2 ∧
    (l1 ≤ 1 → getTotalExperienceForLevel g l1 = 0) ∧
    (100 < l2 → getTotalExperienceForLevel g l2 = getTotalExperienceForLevel g 100) := by
  refine ⟨?_, ?_, ?_⟩
  · unfold getTotalExperienceForLevel
    by_cases h1 : l1 ≤ 1
    · simp only [h1, if_true]
      split
      · exact le_refl 0
      · exact le_max_left 0 _
    · have h2 : ¬ l2 ≤ 1 := fun hc => h1 (le_trans h hc)
      simp only [h1, h2, if_false]
      refine max_le_max (le_refl 0) ?_
      have hn0 : (0 : ℤ) ≤ if 100 < l1 then 100 else l1 := by
        split
        · norm_num
        · omega
      refine groupFormula_mono g hn0 ?_
      by_cases ha : 100 < l1
      · have hb : 100 < l2 := lt_of_lt_of_le ha h
        simp [ha, hb]
      · by_cases hb : 100 < l2
        · simp only [ha, if_false, hb, if_true]
          omega
        · simp [ha, hb, h]
  · intro h1
    simp [getTotalExperienceForLevel, h1]
  · intro h2
    have : ¬ l2 ≤ 1 := by omega
    simp [getTotalExperienceForLevel, this, h2]

/-- Witness for `getTotalExperienceForLevel_props` at the medium-slow curve,
levels 0 and 101. -/
theorem getTotalExperienceForLevel_props_witness :
    getTotalExperienceForLevel ExperienceGroup.medium_slow 0 ≤
      getTotalExperienceForLevel ExperienceGroup.medium_slow 101 ∧
    getTotalExperienceForLevel ExperienceGroup.medium_slow 0 = 0 ∧
    getTotalExperienceForLevel ExperienceGroup.medium_slow 101 =
      getTotalExperienceForLevel ExperienceGroup.medium_slow 100 := by
  have h := getTotalExperienceForLevel_props ExperienceGroup.medium_slow 0 101 (by decide)
  exact ⟨h.1, h.2.1 (by decide), h.2.2 (by decide)⟩

end Experience

namespace TypeUtils

/-- **C7**: the type-effectiveness of an attack against two defending types
is the product of the effectivenesses against each alone, and a pairing with
no entry in the chart contributes the neutral factor 1. -/
theorem getTypeEffectiveness_multiplicative (attackType a b : String) :
    getTypeEffectiveness attackType [a, b] =
      getTypeEffectiveness attackType [a] * getTypeEffectiveness attackType [b] ∧
    (typeChartLookup attackType a = none → getTypeEffectiveness attackType [a] = 1) := by
  constructor
  · simp only [getTypeEffectiveness, List.isEmpty, List.foldl]
    cases typeChartLookup attackType a <;> cases typeChartLookup attackType b <;> simp
  · intro h
    simp [getTypeEffectiveness, h, List.foldl]

end TypeUtils

namespace Natures

/-- Stat keys affected by natures (src/constants/natures.ts `StatName`,
without `hp`, which natures never touch). -/
inductive StatName where
  | attack
  | defense
  | spAttack
  | spDefense
  | speed
deriving DecidableEq, Repr

/-- A nature: the stat it raises by 10% and the stat it lowers by 10%
(`null` for neutral natures). -/
structure Nature where
  increased : Option StatName
  decreased : Option StatName
deriving DecidableEq, Repr

open StatName

/-- The `NATURES` table of src/constants/natures.ts (id → effect). -/
def NATURES : List (String × Nature) :=
  [("lonely", ⟨some attack, some defense⟩),
   ("adamant", ⟨some attack, some spAttack⟩),
   ("naughty", ⟨some attack, some spDefense⟩),
   ("brave", ⟨some attack, some speed⟩),
   ("bold", ⟨some defense, some attack⟩),
   ("impish", ⟨some defense, some spAttack⟩),
   ("lax", ⟨some defense, some spDefense⟩),
   ("relaxed", ⟨some defense, some speed⟩),
   ("modest", ⟨some spAttack, some attack⟩),
   ("mild", ⟨some spAttack, some defense⟩),
   ("rash", ⟨some spAttack, some spDefense⟩),
   ("quiet", ⟨some spAttack, some speed⟩),
   ("calm", ⟨some spDefense, some attack⟩),
   ("gentle", ⟨some spDefense, some defense⟩),
   ("careful", ⟨some spDefense, some spAttack⟩),
   ("sassy", ⟨some spDefense, some speed⟩),
   ("timid", ⟨some speed, some attack⟩),
   ("hasty", ⟨some speed, some defense⟩),
   ("jolly", ⟨some speed, some spAttack⟩),
   ("naive", ⟨some speed, some spDefense⟩),
   ("hardy", ⟨none, none⟩),
   ("docile", ⟨none, none⟩),
   ("serious", ⟨none, none⟩),
   ("bashful", ⟨none, none⟩),
   ("quirky", ⟨none, none⟩)]

/-- `getNatureModifier` from src/constants/natures.ts: 1.1 for the increased
stat, 0.9 for the decreased one, 1.0 otherwise or for an unknown nature. -/
def getNatureModifier (natureId : String) (stat : StatName) : ℚ :=
  match NATURES.lookup (jsToLowerCase natureId) with
  | none => 1
  | some nature =>
      if nature.increased = some stat then 11 / 10
      else if nature.decreased = some stat then 9 / 10
      else 1

end Natures

/-- Six named numeric fields, used for base stats, IVs and EVs alike
(the shapes `BaseStats`, `PokemonInstance.ivs` and `PokemonInstance.evs`
of the source). -/
structure StatFields where
  hp : ℕ
  attack : ℕ
  defense : ℕ
  spAttack : ℕ
  spDefense : ℕ
  speed : ℕ
deriving DecidableEq, Repr

/-- The `CalculatedStats` shape of the source (derived battle stats). -/
structure CalculatedStats where
  hp : ℤ
  attack : ℤ
  defense : ℤ
  spAttack : ℤ
  spDefense : ℤ
  speed : ℤ
deriving DecidableEq, Repr

namespace PokemonUtils

open Natures (StatName)

/-- `calculateMaxHp` from src/game/pokemonUtils.ts:
`max(1, floor(((2·base_hp + iv_hp + floor(ev_hp/4)) · level) / 100) + level + 10)`.
Natural-number division is the floor of the exact quotient, all quantities
being non-negative. -/
def calculateMaxHp (level : ℕ) (ivs evs : StatFields) (bs : StatFields) : ℤ :=
  max 1 ((((2 * bs.hp + ivs.hp + evs.hp / 4) * level) / 100 + level + 10 : ℕ) : ℤ)

/-- The nature record used by `calculateStats` in src/game/pokemonUtils.ts:
`NATURES[natureId.toLowerCase()] || NATURES.hardy` (hardy is neutral). -/
def natureInfo (natureId : String) : Natures.Nature :=
  match Natures.NATURES.lookup (jsToLowerCase natureId) with
  | some n => n
  | none => ⟨none, none⟩

/-- The nature multiplier branch inside `calculateSingleStat` of
src/game/pokemonUtils.ts. -/
def natureMultiplier (natureId : String) (stat : StatName) : ℚ :=
  let n := natureInfo natureId
  if n.increased = some stat then 11 / 10
  else if n.decreased = some stat then 9 / 10
  else 1

/-- The non-HP branch of `calculateSingleStat` from src/game/pokemonUtils.ts:
`max(1, floor((floor(((2·base + iv + floor(ev/4)) · level) / 100) + 5) · mult))`. -/
def calculateOtherStat (level : ℕ) (base iv ev : ℕ) (mult : ℚ) : ℤ :=
  max 1 (Int.floor (((((2 * base + iv + ev / 4) * level) / 100 + 5 : ℕ) : ℚ) * mult))

/-- `calculateStats` from src/game/pokemonUtils.ts, with the instance fields
it reads (`level`, `ivs`, `evs`, `natureId`) passed explicitly. -/
def calculateStats (level : ℕ) (ivs evs : StatFields) (natureId : String)
    (bs : StatFields) : CalculatedStats :=
  { hp := calculateMaxHp level ivs evs bs
    attack := calculateOtherStat level bs.attack ivs.attack evs.attack
      (natureMultiplier natureId StatName.attack)
    defense := calculateOtherStat level bs.defense ivs.defense evs.defense
      (natureMultiplier natureId StatName.defense)
    spAttack := calculateOtherStat level bs.spAttack ivs.spAttack evs.spAttack
      (natureMultiplier natureId StatName.spAttack)
    spDefense := calculateOtherStat level bs.spDefense ivs.spDefense evs.spDefense
      (natureMultiplier natureId StatName.spDefense)
    speed := calculateOtherStat level bs.speed ivs.speed evs.speed
      (natureMultiplier natureId StatName.speed) }

theorem calculateMaxHp_strict_mono (l1 l2 : ℕ) (ivs evs bs : StatFields)
    (h : l1 < l2) : calculateMaxHp l1 ivs evs bs < calculateMaxHp l2 ivs evs bs := by
  unfold calculateMaxHp
  have hdiv : (2 * bs.hp + ivs.hp + evs.hp / 4) * l1 / 100 ≤
      (2 * bs.hp + ivs.hp + evs.hp / 4) * l2 / 100 :=
    Nat.div_le_div_right (Nat.mul_le_mul_left _ (le_of_lt h))
  have h1 : (1 : ℤ) ≤ (((2 * bs.hp + ivs.hp + evs.hp / 4) * l1 / 100 + l1 + 10 : ℕ) : ℤ) := by
    omega
  have h2 : (1 : ℤ) ≤ (((2 * bs.hp + ivs.hp + evs.hp / 4) * l2 / 100 + l2 + 10 : ℕ) : ℤ) := by
    omega
  rw [max_eq_right h1, max_eq_right h2]
  omega

/-- **C4**: every stat derived by `calculateStats` is at least 1, and the
derived maximum HP is strictly increasing in level when every other input is
held fixed. -/
theorem calculateStats_ge_one_and_hp_mono (level l1 l2 : ℕ) (ivs evs bs : StatFields)
    (natureId : String) (h : l1 < l2) :
    (1 ≤ (calculateStats level ivs evs natureId bs).hp ∧
     1 ≤ (calculateStats level ivs evs natureId bs).attack ∧
     1 ≤ (calculateStats level ivs evs natureId bs).defense ∧
     1 ≤ (calculateStats level ivs evs natureId bs).spAttack ∧
     1 ≤ (calculateStats level ivs evs natureId bs).spDefense ∧
     1 ≤ (calculateStats level ivs evs natureId bs).speed) ∧
    (calculateStats l1 ivs evs natureId bs).hp < (calculateStats l2 ivs evs natureId bs).hp := by
  refine ⟨⟨le_max_left 1 _, le_max_left 1 _, le_max_left 1 _, le_max_left 1 _,
    le_max_left 1 _, le_max_left 1 _⟩, ?_⟩
  exact calculateMaxHp_strict_mono l1 l2 ivs evs bs h

/-- Witness for `calculateStats_ge_one_and_hp_mono`: base 45 HP species,
zero IVs/EVs, neutral nature, levels 5 and 6. -/
theorem calculateStats_ge_one_and_hp_mono_witness :
    1 ≤ (calculateStats 5 ⟨0, 0, 0, 0, 0, 0⟩ ⟨0, 0, 0, 0, 0, 0⟩ "hardy"
      ⟨45, 49, 49, 65, 65, 45⟩).hp ∧
    (calculateStats 5 ⟨0, 0, 0, 0, 0, 0⟩ ⟨0, 0, 0, 0, 0, 0⟩ "hardy"
      ⟨45, 49, 49, 65, 65, 45⟩).hp <
    (calculateStats 6 ⟨0, 0, 0, 0, 0, 0⟩ ⟨0, 0, 0, 0, 0, 0⟩ "hardy"
      ⟨45, 49, 49, 65, 65, 45⟩).hp := by
  have h := calculateStats_ge_one_and_hp_mono 5 5 6 ⟨0, 0, 0, 0, 0, 0⟩ ⟨0, 0, 0, 0, 0, 0⟩
    ⟨45, 49, 49, 65, 65, 45⟩ "hardy" (by decide)
  exact ⟨h.1.1, h.2⟩

end PokemonUtils

/-- `Math.round` of JavaScript: round half away from zero is `floor(q + 1/2)`
for the non-negative quantities it is applied to here. -/
def mathRound (q : ℚ) : ℤ :=
  Int.floor (q + 1 / 2)

namespace PokemonUtils

/-- `calculateXpToNextLevel` from src/game/pokemonUtils.ts: 0 at level ≥ 100,
10 at level ≤ 1, otherwise the difference of consecutive `floor(0.8·n³)`
totals, at least 10. -/
def calculateXpToNextLevel (level : ℕ) : ℤ :=
  if 100 ≤ level then 0
  else if level ≤ 1 then 10
  else
    let currentTotalXp := Int.floor (((level : ℚ) ^ 3) * (4 / 5))
    let nextTotalXp := Int.floor ((((level : ℚ) + 1) ^ 3) * (4 / 5))
    max 10 (nextTotalXp - currentTotalXp)

/-- The fields of a `PokemonInstance` read and written by the level-up
functions of src/game/pokemonUtils.ts.  `speciesBaseStats` models the
presence of `speciesDetails` together with its already-parsed base-stat
record; `xpToNextLevel` is `none` when the field is `undefined`. -/
structure Instance where
  level : ℕ
  xp : ℤ
  xpToNextLevel : Option ℤ
  currentHp : ℤ
  maxHp : ℤ
  calculatedStats : CalculatedStats
  ivs : StatFields
  evs : StatFields
  natureId : String
  speciesBaseStats : Option StatFields
deriving DecidableEq, Repr

/-- `recalculateStatsAndHp` from src/game/pokemonUtils.ts: recompute the
derived stats at the current level, rescale the current HP by the old-to-new
max-HP ratio (rounded), clamp it into `[0, newMaxHp]`, and refresh
`xpToNextLevel`. -/
def recalculateStatsAndHp (inst : Instance) : Instance :=
  match inst.speciesBaseStats with
  | none => inst
  | some bs =>
      let oldMaxHp : ℤ := inst.calculatedStats.hp
      let newStats := calculateStats inst.level inst.ivs inst.evs inst.natureId bs
      let currentHp1 : ℤ :=
        if newStats.hp ≠ oldMaxHp ∧ 0 < oldMaxHp then
          mathRound ((newStats.hp : ℚ) * ((inst.currentHp : ℚ) / (oldMaxHp : ℚ)))
        else if oldMaxHp = 0 ∧ 0 < newStats.hp then newStats.hp
        else if newStats.hp < inst.currentHp then newStats.hp
        else inst.currentHp
      let currentHp2 := max 0 (min currentHp1 newStats.hp)
      { inst with
          calculatedStats := newStats
          maxHp := newStats.hp
          currentHp := currentHp2
          xpToNextLevel := some (calculateXpToNextLevel inst.level) }

/-- The `while` loop of `addExperience` in src/game/pokemonUtils.ts: subtract
the threshold, increment the level and refresh the threshold while the level
is below 100, the threshold is a positive number and the accumulated XP
reaches it.  The loop runs at most `100 - level` times, which the fuel
argument makes explicit. -/
def addExperienceLoop (inst : Instance) (fuel : ℕ) (leveled : Bool) : Instance × Bool :=
  match fuel with
  | 0 => (inst, leveled)
  | fuel + 1 =>
      match inst.xpToNextLevel with
      | none => (inst, leveled)
      | some t =>
          if inst.level < 100 ∧ 0 < t ∧ t ≤ inst.xp then
            let inst1 := { inst with
              xp := inst.xp - t
              level := inst.level + 1 }
            let inst2 := { inst1 with
              xpToNextLevel := some (calculateXpToNextLevel inst1.level) }
            addExperienceLoop inst2 fuel true
          else (inst, leveled)

/-- `addExperience` from src/game/pokemonUtils.ts: add the gained amount,
initialise the threshold when undefined, run the level-up loop, then either
recalculate stats and HP (when a level was gained and species details are
present) or repair an invalid threshold. -/
def addExperience (inst : Instance) (amount : ℤ) : Instance :=
  if 100 ≤ inst.level then inst
  else
    let inst1 := { inst with xp := inst.xp + amount }
    let inst2 :=
      match inst1.xpToNextLevel with
      | none => { inst1 with xpToNextLevel := some (calculateXpToNextLevel inst1.level) }
      | some _ => inst1
    let res := addExperienceLoop inst2 (100 - inst2.level) false
    let inst3 := res.fst
    if res.snd then
      match inst3.speciesBaseStats with
      | some _ => recalculateStatsAndHp inst3
      | none => inst3
    else
      match inst3.xpToNextLevel with
      | none => { inst3 with xpToNextLevel := some (calculateXpToNextLevel inst3.level) }
      | some t =>
          if t ≤ 0 then { inst3 with xpToNextLevel := some (calculateXpToNextLevel inst3.level) }
          else inst3

end PokemonUtils

namespace PokemonManager

open Natures (StatName)
open Experience (ExperienceGroup getTotalExperienceForLevel)

/-- JavaScript `parseInt(...) || 1` on an already-parsed base stat: the value
0 falls back to 1. -/
def orOne (n : ℕ) : ℕ :=
  if n = 0 then 1 else n

/-- The fields of a `PokemonInstance` read and written by `addExperience` of
src/game/pokemonManager.ts. -/
structure Instance where
  level : ℕ
  xp : ℤ
  xpToNextLevel : ℤ
  currentHp : ℤ
  maxHp : ℤ
  calculatedStats : CalculatedStats
  ivs : StatFields
  evs : StatFields
  natureId : String
deriving DecidableEq, Repr

/-- `calculateStats` from src/game/pokemonManager.ts, with the base-stat
record of the `一般` form (whose presence the function requires) passed in
as `bs`.  HP is
`floor(((2·base_hp + iv + floor(ev/4)) · level) / 100) + level + 10` with no
lower clamp; each other stat is
`max(1, floor((floor(((2·base + iv + floor(ev/4)) · level) / 100) + 5) · nature))`;
a base stat that parses to 0 falls back to 1 (`parseInt(...) || 1`). -/
def calculateStats (inst : Instance) (bs : StatFields) : CalculatedStats :=
  let hp : ℤ :=
    (((2 * orOne bs.hp + inst.ivs.hp + inst.evs.hp / 4) * inst.level) / 100 + inst.level + 10 : ℕ)
  let other (base iv ev : ℕ) (stat : StatName) : ℤ :=
    max 1 (Int.floor
      (((((2 * orOne base + iv + ev / 4) * inst.level) / 100 + 5 : ℕ) : ℚ) *
        Natures.getNatureModifier inst.natureId stat))
  { hp := hp
    attack := other bs.attack inst.ivs.attack inst.evs.attack StatName.attack
    defense := other bs.defense inst.ivs.defense inst.evs.defense StatName.defense
    spAttack := other bs.spAttack inst.ivs.spAttack inst.evs.spAttack StatName.spAttack
    spDefense := other bs.spDefense inst.ivs.spDefense inst.evs.spDefense StatName.spDefense
    speed := other bs.speed inst.ivs.speed inst.evs.speed StatName.speed }

/-- One iteration body of the level-up loop of `addExperience` in
src/game/pokemonManager.ts: increment the level, recompute the stats, set the
new max HP and heal fully. -/
def levelUpOnce (inst : Instance) (bs : StatFields) : Instance :=
  let inst1 := { inst with level := inst.level + 1 }
  let newStats := calculateStats inst1 bs
  { inst1 with
      calculatedStats := newStats
      maxHp := newStats.hp
      currentHp := newStats.hp }

/-- The `while` loop of `addExperience` in src/game/pokemonManager.ts.  The
second component is the running `xpForNextLevel` local, which the final
`break` at level 100 leaves untouched.  The fuel argument makes the at most
`100 - level` iterations explicit. -/
def addExperienceLoop (bs : StatFields) (g : ExperienceGroup) (inst : Instance)
    (xpForNextLevel : ℤ) (fuel : ℕ) : Instance × ℤ :=
  match fuel with
  | 0 => (inst, xpForNextLevel)
  | fuel + 1 =>
      if xpForNextLevel ≤ inst.xp ∧ inst.level < 100 then
        let inst1 := levelUpOnce inst bs
        if inst1.level < 100 then
          addExperienceLoop bs g inst1
            (getTotalExperienceForLevel g ((inst1.level : ℤ) + 1)) fuel
        else (inst1, xpForNextLevel)
      else (inst, xpForNextLevel)

/-- `addExperience` from src/game/pokemonManager.ts, with the species base
stats and experience group passed in place of `speciesData`.  Returns the
updated instance (the message list of the source is not modelled). -/
def addExperience (inst : Instance) (bs : StatFields) (g : ExperienceGroup)
    (amount : ℤ) : Instance :=
  if 100 ≤ inst.level then inst
  else
    let inst1 := { inst with xp := inst.xp + amount }
    let res := addExperienceLoop bs g inst1
      (getTotalExperienceForLevel g ((inst1.level : ℤ) + 1)) (100 - inst1.level)
    { res.fst with xpToNextLevel := res.snd }

end PokemonManager

namespace PokemonManager

/-- The state every level-up iteration of `addExperience` leaves behind:
stats recomputed at the current level, max HP equal to the recomputed HP
stat, and current HP fully restored. -/
def healedInvariant (bs : StatFields) (inst : Instance) : Prop :=
  inst.calculatedStats = calculateStats inst bs ∧
  inst.maxHp = inst.calculatedStats.hp ∧
  inst.currentHp = inst.maxHp

theorem levelUpOnce_healed (inst : Instance) (bs : StatFields) :
    healedInvariant bs (levelUpOnce inst bs) :=
  ⟨rfl, rfl, rfl⟩

theorem addExperienceLoop_healed (bs : StatFields) (g : Experience.ExperienceGroup) :
    ∀ (fuel : ℕ) (inst : Instance) (xpNext : ℤ),
      healedInvariant bs inst →
      healedInvariant bs (addExperienceLoop bs g inst xpNext fuel).fst := by
  intro fuel
  induction fuel with
  | zero => intro inst xpNext h; exact h
  | succ n ih =>
      intro inst xpNext h
      simp only [addExperienceLoop]
      split
      · split
        · exact ih _ _ (levelUpOnce_healed inst bs)
        · exact levelUpOnce_healed inst bs
      · exact h

theorem addExperienceLoop_healed_start (bs : StatFields) (g : Experience.ExperienceGroup)
    (fuel : ℕ) (inst : Instance) (xpNext : ℤ)
    (hxp : xpNext ≤ inst.xp) (hlvl : inst.level < 100) (hfuel : 0 < fuel) :
    healedInvariant bs (addExperienceLoop bs g inst xpNext fuel).fst := by
  cases fuel with
  | zero => exact absurd hfuel (by omega)
  | succ n =>
      simp only [addExperienceLoop]
      rw [if_pos ⟨hxp, hlvl⟩]
      split
      · exact addExperienceLoop_healed bs g n _ _ (levelUpOnce_healed _ bs)
      · exact levelUpOnce_healed _ bs

/-- **C2** (amended): whenever `addExperience` of pokemonManager.ts gains
enough experience to level up at least once (the total-XP threshold of the
next level is reached while the level is below 100), the returned instance
has its derived stats recomputed at its new level and its current HP fully
restored to the new maximum HP. -/
theorem addExperience_levelUp_full_restore (inst : Instance) (bs : StatFields)
    (g : Experience.ExperienceGroup) (amount : ℤ)
    (hlvl : inst.level < 100)
    (hgain : Experience.getTotalExperienceForLevel g ((inst.level : ℤ) + 1) ≤ inst.xp + amount) :
    (addExperience inst bs g amount).currentHp = (addExperience inst bs g amount).maxHp ∧
    (addExperience inst bs g amount).maxHp =
      (addExperience inst bs g amount).calculatedStats.hp ∧
    (addExperience inst bs g amount).calculatedStats =
      calculateStats (addExperience inst bs g amount) bs := by
  have hnot : ¬ 100 ≤ inst.level := by omega
  have h := addExperienceLoop_healed_start bs g (100 - inst.level)
    { inst with xp := inst.xp + amount }
    (Experience.getTotalExperienceForLevel g ((inst.level : ℤ) + 1))
    hgain hlvl (by omega)
  obtain ⟨h1, h2, h3⟩ := h
  simp only [addExperience, hnot, if_false]
  exact ⟨h3, h2, h1⟩

end PokemonManager

/-- Concrete input for the `addExperience_levelUp_full_restore` witness: a
level-98 instance with all base stats 50, zero IVs and EVs, at half HP. -/
def managerInstW : PokemonManager.Instance :=
  { level := 98
    xp := 0
    xpToNextLevel := 0
    currentHp := 103
    maxHp := 206
    calculatedStats := ⟨206, 103, 103, 103, 103, 103⟩
    ivs := ⟨0, 0, 0, 0, 0, 0⟩
    evs := ⟨0, 0, 0, 0, 0, 0⟩
    natureId := "hardy" }

/-- Witness for `addExperience_levelUp_full_restore`: gaining one whole
medium-fast level at level 98 fully restores HP. -/
theorem addExperience_levelUp_full_restore_witness :
    (PokemonManager.addExperience managerInstW ⟨50, 50, 50, 50, 50, 50⟩
        Experience.ExperienceGroup.medium_fast 970299).currentHp =
      (PokemonManager.addExperience managerInstW ⟨50, 50, 50, 50, 50, 50⟩
        Experience.ExperienceGroup.medium_fast 970299).maxHp := by
  have h := PokemonManager.addExperience_levelUp_full_restore managerInstW
    ⟨50, 50, 50, 50, 50, 50⟩ Experience.ExperienceGroup.medium_fast 970299
    (by norm_num [managerInstW])
    (by norm_num [managerInstW, Experience.getTotalExperienceForLevel, Experience.groupFormula])
  exact h.1

/-- Concrete input for the C2 counterexample: a level-98 instance (all base
stats 50, zero IVs/EVs, neutral nature) standing at half of its 206 max HP,
one threshold away from level 99. -/
def utilsInstC2 : PokemonUtils.Instance :=
  { level := 98
    xp := 0
    xpToNextLevel := some 23286
    currentHp := 103
    maxHp := 206
    calculatedStats := ⟨206, 103, 103, 103, 103, 103⟩
    ivs := ⟨0, 0, 0, 0, 0, 0⟩
    evs := ⟨0, 0, 0, 0, 0, 0⟩
    natureId := "hardy"
    speciesBaseStats := some ⟨50, 50, 50, 50, 50, 50⟩ }

/-- Counterexample to C2 as frozen: `addExperience` of pokemonUtils.ts (the
cited level-up processing) levels the damaged instance up to 99 but rescales
its current HP by the old max-HP ratio instead of fully restoring it: the
result stands at 104 of 208 HP. -/
theorem addExperience_not_full_restore_counterexample :
    (PokemonUtils.addExperience utilsInstC2 23286).maxHp = 208 ∧
    (PokemonUtils.addExperience utilsInstC2 23286).currentHp = 104 ∧
    (PokemonUtils.addExperience utilsInstC2 23286).currentHp ≠
      (PokemonUtils.addExperience utilsInstC2 23286).maxHp := by
  have hev : PokemonUtils.addExperience utilsInstC2 23286 =
      { level := 99
        xp := 0
        xpToNextLevel := some (PokemonUtils.calculateXpToNextLevel 99)
        currentHp := 104
        maxHp := 208
        calculatedStats :=
          PokemonUtils.calculateStats 99 ⟨0, 0, 0, 0, 0, 0⟩ ⟨0, 0, 0, 0, 0, 0⟩ "hardy"
            ⟨50, 50, 50, 50, 50, 50⟩
        ivs := ⟨0, 0, 0, 0, 0, 0⟩
        evs := ⟨0, 0, 0, 0, 0, 0⟩
        natureId := "hardy"
        speciesBaseStats := some ⟨50, 50, 50, 50, 50, 50⟩ } := by
    norm_num [PokemonUtils.addExperience, PokemonUtils.addExperienceLoop,
      PokemonUtils.recalculateStatsAndHp, PokemonUtils.calculateXpToNextLevel,
      PokemonUtils.calculateStats, PokemonUtils.calculateMaxHp, mathRound, utilsInstC2]
  rw [hev]
  norm_num

/-- The non-volatile status conditions of src/interfaces/pokemon.ts
(`null` is modelled as `none`). -/
inductive StatusCondition where
  | PAR
  | PSN
  | BRN
  | SLP
  | FRZ
deriving DecidableEq, Repr

/-- The `stats` record stored on a `PokemonInstance`
(src/interfaces/pokemon.ts). -/
structure InstanceStats where
  attack : ℤ
  defense : ℤ
  specialAttack : ℤ
  specialDefense : ℤ
  speed : ℤ
deriving DecidableEq, Repr

/-- The fields of a `PokemonInstance` read by the battle-level functions
(battleManager.ts, battleCalculations, battleCapture.ts,
trainingManager.ts).  `speciesCatchRate` and `speciesTypes` stand for
`speciesDetails?.catchRate` and `speciesDetails?.types`. -/
structure Pokemon where
  instanceId : String
  pokedexId : String
  level : ℕ
  currentHp : ℤ
  maxHp : ℤ
  stats : InstanceStats
  calculatedStats : CalculatedStats
  statusCondition : Option StatusCondition
  speciesCatchRate : Option ℤ
  speciesTypes : List String
deriving DecidableEq, Repr

/-- A `BattleParticipant` (src/interfaces/battle.ts): the battle functions
modelled here read its party, its active instance and its name. -/
structure Participant where
  id : String
  name : String
  party : List Pokemon
  activePokemon : Pokemon
deriving DecidableEq, Repr

/-- The battle status tags of src/interfaces/battle.ts. -/
inductive BattleStatus where
  | INITIALIZING
  | WAITING_FOR_INPUT
  | PROCESSING
  | PLAYER_WIN
  | OPPONENT_WIN
  | DRAW
  | FLED
deriving DecidableEq, Repr

/-- A `BattleState` (src/interfaces/battle.ts) restricted to the fields the
modelled functions read and write. -/
structure BattleState where
  participants : List Participant
  turn : ℤ
  log : List String
  status : BattleStatus
deriving DecidableEq, Repr

namespace TypeUtils

theorem lookup_nonneg (d : String) :
    ∀ (row : List (String × ℚ)), (∀ p ∈ row, 0 ≤ p.2) →
      ∀ v, row.lookup d = some v → 0 ≤ v := by
  intro row
  induction row with
  | nil => intro _ v h; simp [List.lookup] at h
  | cons p t ih =>
      intro hall v h
      rw [List.lookup] at h
      by_cases hk : d == p.1
      · have : some p.2 = some v := by
          cases p; simpa [hk] using h
        cases this
        exact hall p (List.mem_cons_self p t)
      · refine ih (fun q hq => hall q (List.mem_cons_of_mem p hq)) v ?_
        cases p; simpa [hk] using h

set_option maxHeartbeats 2000000 in
theorem chartRow_nonneg (a : String) (row : List (String × ℚ))
    (h : chartRow a = some row) : ∀ p ∈ row, 0 ≤ p.2 := by
  unfold chartRow at h
  split at h <;> cases h <;> norm_num [List.forall_mem_cons]

theorem typeChartLookup_nonneg (a d : String) (v : ℚ)
    (h : typeChartLookup a d = some v) : 0 ≤ v := by
  unfold typeChartLookup at h
  cases hrow : chartRow a with
  | none => rw [hrow] at h; cases h
  | some row =>
      rw [hrow] at h
      exact lookup_nonneg d row (chartRow_nonneg a row hrow) v h

theorem getTypeEffectiveness_nonneg (attackType : String) (defenderTypes : List String) :
    0 ≤ getTypeEffectiveness attackType defenderTypes := by
  unfold getTypeEffectiveness
  split
  · norm_num
  · have key : ∀ (l : List String) (acc : ℚ), 0 ≤ acc →
        0 ≤ l.foldl
          (fun acc defenderType =>
            match typeChartLookup attackType defenderType with
            | some v => acc * v
            | none => acc) acc := by
      intro l
      induction l with
      | nil => intro acc h; simpa using h
      | cons d t ih =>
          intro acc h
          simp only [List.foldl]
          cases hv : typeChartLookup attackType d with
          | none => simpa [hv] using ih acc h
          | some v =>
              have := ih (acc * v) (mul_nonneg h (typeChartLookup_nonneg attackType d v hv))
              simpa [hv] using this
    exact key defenderTypes 1 (by norm_num)

end TypeUtils


namespace BattleManager

/-- Move categories (src/interfaces/pokemon.ts `Move.category`). -/
inductive MoveCategory where
  | physical
  | special
  | status
deriving DecidableEq, Repr

/-- The fields of a `Move` read by `calculateDamage`. -/
structure Move where
  name : String
  type : String
  category : MoveCategory
  power : ℤ
  pp : ℤ
deriving DecidableEq, Repr

/-- The attack stat picked before the burn check in `calculateDamage`:
special attack for special moves, attack otherwise. -/
def rawAttackStat (attacker : Pokemon) (move : Move) : ℤ :=
  if move.category = MoveCategory.special then attacker.calculatedStats.spAttack
  else attacker.calculatedStats.attack

/-- The attack stat used by `calculateDamage`: halved (floored) for a burned
attacker using a physical move. -/
def selectedAttackStat (attacker : Pokemon) (move : Move) : ℤ :=
  if move.category = MoveCategory.physical ∧ attacker.statusCondition = some .BRN then
    Int.floor ((rawAttackStat attacker move : ℚ) / 2)
  else rawAttackStat attacker move

/-- The defense stat selected by `calculateDamage`: special defense for
special moves, defense otherwise. -/
def selectedDefenseStat (defender : Pokemon) (move : Move) : ℤ :=
  if move.category = MoveCategory.special then defender.calculatedStats.spDefense
  else defender.calculatedStats.defense

/-- The base-formula line of `calculateDamage`:
`floor((((2·level/5 + 2) · power · attackStat / defenseStat) / 50) + 2)`. -/
def baseDamage (attacker defender : Pokemon) (move : Move) : ℤ :=
  Int.floor ((((2 * (attacker.level : ℚ) / 5 + 2) * (move.power : ℚ) *
    (selectedAttackStat attacker move : ℚ) / (selectedDefenseStat defender move : ℚ)) / 50) + 2)

/-- The multiplier accumulated by `calculateDamage`: ×1.5 on a critical hit,
×1.5 on same-type attack bonus, × the type effectiveness. -/
def damageModifier (attacker defender : Pokemon) (move : Move) (isCritical : Bool) : ℚ :=
  (if isCritical then 3 / 2 else 1) *
  (if attacker.speciesTypes.contains move.type then 3 / 2 else 1) *
  TypeUtils.getTypeEffectiveness move.type defender.speciesTypes

/-- `calculateDamage` from src/game/battleManager.ts.  The two random draws
(the 1/24 critical roll and the `Math.random()·0.15 + 0.85` damage roll) are
passed in as `isCritical` and `randFactor`.  A non-positive power returns 0;
otherwise the floored product is clamped up to 1 when the effectiveness is
positive and forced to 0 when the effectiveness is 0 (the source applies
these two `if` statements in sequence, which this nesting reproduces). -/
def calculateDamage (attacker defender : Pokemon) (move : Move)
    (isCritical : Bool) (randFactor : ℚ) : ℤ :=
  if move.power ≤ 0 then 0
  else
    let effectiveness : ℚ := TypeUtils.getTypeEffectiveness move.type defender.speciesTypes
    let damage1 : ℤ := Int.floor ((baseDamage attacker defender move : ℚ) *
      damageModifier attacker defender move isCritical * randFactor)
    if effectiveness = 0 then 0
    else if 0 < effectiveness ∧ damage1 < 1 then 1 else damage1

theorem rawAttackStat_nonneg (attacker : Pokemon) (move : Move)
    (hatk : 0 ≤ attacker.calculatedStats.attack)
    (hspatk : 0 ≤ attacker.calculatedStats.spAttack) :
    0 ≤ rawAttackStat attacker move := by
  unfold rawAttackStat
  split <;> assumption

theorem selectedAttackStat_nonneg (attacker : Pokemon) (move : Move)
    (hatk : 0 ≤ attacker.calculatedStats.attack)
    (hspatk : 0 ≤ attacker.calculatedStats.spAttack) :
    0 ≤ selectedAttackStat attacker move := by
  have h0 := rawAttackStat_nonneg attacker move hatk hspatk
  unfold selectedAttackStat
  split
  · refine Int.floor_nonneg.mpr ?_
    have : (0 : ℚ) ≤ (rawAttackStat attacker move : ℚ) := by exact_mod_cast h0
    linarith
  · exact h0

theorem baseDamage_ge_two (attacker defender : Pokemon) (move : Move)
    (hpow : 0 ≤ move.power)
    (hatk : 0 ≤ selectedAttackStat attacker move)
    (hdef : 0 < selectedDefenseStat defender move) :
    2 ≤ baseDamage attacker defender move := by
  unfold baseDamage
  refine Int.le_floor.mpr ?_
  have h2 : (0 : ℚ) ≤ (move.power : ℚ) := by exact_mod_cast hpow
  have h3 : (0 : ℚ) ≤ (selectedAttackStat attacker move : ℚ) := by exact_mod_cast hatk
  have h4 : (0 : ℚ) < (selectedDefenseStat defender move : ℚ) := by exact_mod_cast hdef
  have h5 : (0 : ℚ) ≤ (2 * (attacker.level : ℚ) / 5 + 2) * (move.power : ℚ) *
      (selectedAttackStat attacker move : ℚ) / (selectedDefenseStat defender move : ℚ) := by
    positivity
  push_cast
  linarith

theorem damageModifier_nonneg (attacker defender : Pokemon) (move : Move) (isCritical : Bool) :
    0 ≤ damageModifier attacker defender move isCritical := by
  unfold damageModifier
  refine mul_nonneg (mul_nonneg ?_ ?_)
    (TypeUtils.getTypeEffectiveness_nonneg move.type defender.speciesTypes) <;>
    split <;> norm_num

/-- **C3**: for a move with positive base power, non-negative attacker stats,
a positive selected defender stat and a damage roll in `[0.85, 1]`, the
damage returned by `calculateDamage` is never negative, is exactly 0 when
the type effectiveness is 0, and is at least 1 when the type effectiveness
is positive — forced to exactly 1 whenever the floored product would
otherwise fall below 1. -/
theorem calculateDamage_bounds (attacker defender : Pokemon) (move : Move)
    (isCritical : Bool) (randFactor : ℚ)
    (hpow : 0 < move.power)
    (hatk : 0 ≤ attacker.calculatedStats.attack)
    (hspatk : 0 ≤ attacker.calculatedStats.spAttack)
    (hdef : 0 < selectedDefenseStat defender move)
    (hr0 : 85 / 100 ≤ randFactor) (hr1 : randFactor ≤ 1) :
    0 ≤ calculateDamage attacker defender move isCritical randFactor ∧
    (TypeUtils.getTypeEffectiveness move.type defender.speciesTypes = 0 →
      calculateDamage attacker defender move isCritical randFactor = 0) ∧
    (0 < TypeUtils.getTypeEffectiveness move.type defender.speciesTypes →
      1 ≤ calculateDamage attacker defender move isCritical randFactor) ∧
    (0 < TypeUtils.getTypeEffectiveness move.type defender.speciesTypes →
      Int.floor ((baseDamage attacker defender move : ℚ) *
        damageModifier attacker defender move isCritical * randFactor) < 1 →
      calculateDamage attacker defender move isCritical randFactor = 1) := by
  have hd0 : (2 : ℤ) ≤ baseDamage attacker defender move :=
    baseDamage_ge_two attacker defender move (le_of_lt hpow)
      (selectedAttackStat_nonneg attacker move hatk hspatk) hdef
  have hmod : 0 ≤ damageModifier attacker defender move isCritical :=
    damageModifier_nonneg attacker defender move isCritical
  have hrnn : (0 : ℚ) ≤ randFactor := le_trans (by norm_num) hr0
  have hd1 : 0 ≤ Int.floor ((baseDamage attacker defender move : ℚ) *
      damageModifier attacker defender move isCritical * randFactor) := by
    refine Int.floor_nonneg.mpr ?_
    have hb : (0 : ℚ) ≤ (baseDamage attacker defender move : ℚ) := by
      exact_mod_cast le_trans (by norm_num) hd0
    positivity
  have hp : ¬ move.power ≤ 0 := by omega
  simp only [calculateDamage, if_neg hp]
  refine ⟨?_, ?_, ?_, ?_⟩
  · split_ifs <;> omega
  · intro h0
    rw [if_pos h0]
  · intro hpos
    rw [if_neg (ne_of_gt hpos)]
    split_ifs with h
    · omega
    · have := not_and.mp h hpos
      omega
  · intro hpos hlt
    rw [if_neg (ne_of_gt hpos), if_pos ⟨hpos, hlt⟩]

end BattleManager

/-- Concrete input for the `calculateDamage_bounds` witness: the level-10,
power-40, attack-20-versus-defense-20 scenario of the specification, with an
electric-type special move against a water-type defender. -/
def damagePokemonW : Pokemon :=
  { instanceId := "w1"
    pokedexId := "Y0010"
    level := 10
    currentHp := 30
    maxHp := 30
    stats := ⟨20, 20, 20, 20, 20⟩
    calculatedStats := ⟨30, 20, 20, 20, 20, 20⟩
    statusCondition := none
    speciesCatchRate := some 45
    speciesTypes := ["电"] }

/-- Witness for `calculateDamage_bounds`: the electric move against a
water-type defender has positive effectiveness, so the damage is at least 1. -/
theorem calculateDamage_bounds_witness :
    0 ≤ BattleManager.calculateDamage damagePokemonW
      { damagePokemonW with speciesTypes := ["水"] }
      ⟨"十万伏特", "电", BattleManager.MoveCategory.special, 40, 15⟩ false 1 ∧
    1 ≤ BattleManager.calculateDamage damagePokemonW
      { damagePokemonW with speciesTypes := ["水"] }
      ⟨"十万伏特", "电", BattleManager.MoveCategory.special, 40, 15⟩ false 1 := by
  have h := BattleManager.calculateDamage_bounds damagePokemonW
    { damagePokemonW with speciesTypes := ["水"] }
    ⟨"十万伏特", "电", BattleManager.MoveCategory.special, 40, 15⟩ false 1
    (by norm_num) (by norm_num [damagePokemonW]) (by norm_num [damagePokemonW])
    (by norm_num [BattleManager.selectedDefenseStat, damagePokemonW]) (by norm_num) (by norm_num)
  have heff : (0 : ℚ) < TypeUtils.getTypeEffectiveness "电" ["水"] := by
    rw [show TypeUtils.getTypeEffectiveness "电" ["水"] = 1 * 2 from rfl]
    norm_num
  exact ⟨h.1, h.2.2.1 heff⟩

namespace BattleManager

/-- The `StatusCatchBonus` map of src/game/battleManager.ts. -/
def StatusCatchBonus (s : Option StatusCondition) : ℚ :=
  match s with
  | some .PAR => 3 / 2
  | some .PSN => 3 / 2
  | some .BRN => 3 / 2
  | some .SLP => 5 / 2
  | some .FRZ => 5 / 2
  | none => 1

/-- The catch probability computed by `calculateCatchRate` of
src/game/battleManager.ts (the function returns a Math.random() comparison
against this value): `max(1, a) / 255` with no 255 cap, where the max HP is
read from `calculatedStats.hp` and a missing catch rate (`?? 45`) defaults
to 45. -/
def calculateCatchRateProbability (target : Pokemon) (ballBonus : ℚ) : ℚ :=
  let speciesCatchRate : ℤ := (target.speciesCatchRate).getD 45
  let statusBonus : ℚ := StatusCatchBonus target.statusCondition
  let a : ℤ := Int.floor (((3 * (target.calculatedStats.hp : ℚ) - 2 * (target.currentHp : ℚ)) *
    (speciesCatchRate : ℚ) * ballBonus * statusBonus) / (3 * (target.calculatedStats.hp : ℚ)))
  ((max 1 a : ℤ) : ℚ) / 255

end BattleManager

namespace BattleCalculations

/-- JavaScript `pokemon.speciesDetails?.catchRate || 45` in
`calculateCaptureRate`: both a missing and a zero catch rate fall back to
the default 45. -/
def effectiveCatchRate (p : Pokemon) : ℤ :=
  match p.speciesCatchRate with
  | none => 45
  | some c => if c = 0 then 45 else c

/-- `calculateCaptureRate` from the battleCalculations module of the
repository (the function battleCapture.ts imports):
`a = ((3·maxHP − 2·currentHP) · rate · ballBonus · statusBonus) / (3·maxHP)`
evaluated exactly, then `min(255, floor(a)) / 255`.  There is no
`max(1, ·)` lower clamp. -/
def calculateCaptureRate (p : Pokemon) (ballBonus statusBonus : ℚ) : ℚ :=
  let a : ℚ := ((3 * (p.maxHp : ℚ) - 2 * (p.currentHp : ℚ)) * (effectiveCatchRate p : ℚ) *
    ballBonus * statusBonus) / (3 * (p.maxHp : ℚ))
  ((min 255 (Int.floor a) : ℤ) : ℚ) / 255

/-- The capture probability exactly as claim C1 words it:
`min(255, max(1, a)) / 255` where
`a = floor(((3·maxHp − 2·currentHp) · rate · ball · status) / (3·maxHp))`. -/
def claimedCaptureProbability (maxHp currentHp : ℤ) (rate ball status : ℚ) : ℚ :=
  let a : ℤ := Int.floor (((3 * (maxHp : ℚ) - 2 * (currentHp : ℚ)) * rate * ball * status) /
    (3 * (maxHp : ℚ)))
  ((min 255 (max 1 a) : ℤ) : ℚ) / 255

/-- The claim C1 formula with the `max(1, ·)` lower clamp removed, which is
what the code computes. -/
def amendedCaptureProbability (maxHp currentHp : ℤ) (rate ball status : ℚ) : ℚ :=
  let a : ℤ := Int.floor (((3 * (maxHp : ℚ) - 2 * (currentHp : ℚ)) * rate * ball * status) /
    (3 * (maxHp : ℚ)))
  ((min 255 a : ℤ) : ℚ) / 255

end BattleCalculations

namespace BattleCapture

/-- The `statusCaptureBonuses` map of src/game/battleCapture.ts
(`default` for a healthy target). -/
def statusCaptureBonuses (s : Option StatusCondition) : ℚ :=
  match s with
  | some .SLP => 5 / 2
  | some .FRZ => 5 / 2
  | some .PAR => 3 / 2
  | some .BRN => 3 / 2
  | some .PSN => 3 / 2
  | none => 1

/-- The `ballCaptureBonuses` map of src/game/battleCapture.ts; `none` for an
unknown ball id (the call site then defaults to 1). -/
def ballCaptureBonuses (ball : String) : Option ℚ :=
  match ball with
  | "pokeball" => some 1
  | "greatball" => some (3 / 2)
  | "ultraball" => some 2
  | "masterball" => some 255
  | "nestball" => some 1
  | "netball" => some 1
  | "diveball" => some 1
  | _ => none

/-- An `InventoryItem` (src/interfaces/database.ts). -/
structure InventoryItem where
  itemId : String
  quantity : ℤ
deriving DecidableEq, Repr

/-- The pokédex record of a player (seen and caught species ids). -/
structure PokedexStatus where
  seen : List String
  caught : List String
deriving DecidableEq, Repr

/-- The fields of a `Player` (src/interfaces/database.ts) read and written
by `attemptCapture`. -/
structure Player where
  inventory : List InventoryItem
  team : List Pokemon
  pcBox : List Pokemon
  pokedex : PokedexStatus
deriving DecidableEq, Repr

/-- The result of `attemptCapture`: the source returns a partial player
update; here `updatedPlayerState` is the player with that partial update
applied (an absent field means the old value is kept). -/
structure CaptureResult where
  updatedPlayerState : Player
  success : Bool
deriving DecidableEq, Repr

/-- `attemptCapture` from src/game/battleCapture.ts, with the `Math.random()`
draw passed in as `rand`.  The wild-battle precheck rejects unless there is a
second participant whose party has exactly one member; a missing ball stack
rejects with no change; otherwise one ball is consumed (the stack removed
when it hits zero), the capture rate is computed by
`BattleCalculations.calculateCaptureRate`, and a successful draw (or a
masterball, which always succeeds) moves the wild creature into the team or
the PC box and records it in the pokédex. -/
def attemptCapture (battle : BattleState) (player : Player) (ballType : String)
    (rand : ℚ) : CaptureResult :=
  match battle.participants.get? 1 with
  | none => ⟨player, false⟩
  | some opponent =>
      if opponent.party.length ≠ 1 then ⟨player, false⟩
      else
        let wildPokemon := opponent.activePokemon
        match player.inventory.findIdx?
            (fun item => jsToLowerCase item.itemId == jsToLowerCase ballType) with
        | none => ⟨player, false⟩
        | some inventoryItemIndex =>
            let item := (player.inventory.get? inventoryItemIndex).getD ⟨"", 0⟩
            let updatedInventory :=
              if 1 < item.quantity then
                player.inventory.set inventoryItemIndex
                  { item with quantity := item.quantity - 1 }
              else
                player.inventory.eraseIdx inventoryItemIndex
            let ballBonus := (ballCaptureBonuses (jsToLowerCase ballType)).getD 1
            let statusBonus := statusCaptureBonuses wildPokemon.statusCondition
            let captureRate :=
              BattleCalculations.calculateCaptureRate wildPokemon ballBonus statusBonus
            if rand < captureRate ∨ jsToLowerCase ballType = "masterball" then
              let updatedTeam :=
                if player.team.length < 6 then player.team ++ [wildPokemon] else player.team
              let updatedPCBox :=
                if player.team.length < 6 then player.pcBox else player.pcBox ++ [wildPokemon]
              let updatedPokedex :=
                if player.pokedex.caught.contains wildPokemon.pokedexId then player.pokedex
                else
                  { seen :=
                      if player.pokedex.seen.contains wildPokemon.pokedexId then
                        player.pokedex.seen
                      else player.pokedex.seen ++ [wildPokemon.pokedexId]
                    caught := player.pokedex.caught ++ [wildPokemon.pokedexId] }
              ⟨{ inventory := updatedInventory, team := updatedTeam, pcBox := updatedPCBox,
                 pokedex := updatedPokedex }, true⟩
            else
              ⟨{ player with inventory := updatedInventory }, false⟩

end BattleCapture

/-- **C1** (amended): the capture probability used by `attemptCapture` is
`min(255, a) / 255` — the claimed `min(255, max(1, a)) / 255` without its
lower clamp — agreeing with the claimed formula whenever `a ≥ 1`; and a
capture attempt with the masterball always succeeds. -/
theorem captureRate_amended_and_masterball (p : Pokemon) (ballBonus statusBonus : ℚ)
    (battle : BattleState) (player : BattleCapture.Player) (rand : ℚ)
    (opponent : Participant) (idx : ℕ)
    (hop : battle.participants.get? 1 = some opponent)
    (hwild : opponent.party.length = 1)
    (hidx : player.inventory.findIdx?
      (fun item => jsToLowerCase item.itemId == jsToLowerCase "masterball") = some idx) :
    BattleCalculations.calculateCaptureRate p ballBonus statusBonus =
      BattleCalculations.amendedCaptureProbability p.maxHp p.currentHp
        (BattleCalculations.effectiveCatchRate p : ℚ) ballBonus statusBonus ∧
    (1 ≤ Int.floor (((3 * (p.maxHp : ℚ) - 2 * (p.currentHp : ℚ)) *
        (BattleCalculations.effectiveCatchRate p : ℚ) * ballBonus * statusBonus) /
        (3 * (p.maxHp : ℚ))) →
      BattleCalculations.calculateCaptureRate p ballBonus statusBonus =
        BattleCalculations.claimedCaptureProbability p.maxHp p.currentHp
          (BattleCalculations.effectiveCatchRate p : ℚ) ballBonus statusBonus) ∧
    (BattleCapture.attemptCapture battle player "masterball" rand).success = true := by
  refine ⟨rfl, ?_, ?_⟩
  · intro h
    simp only [BattleCalculations.calculateCaptureRate,
      BattleCalculations.claimedCaptureProbability]
    rw [max_eq_right h]
  · have hne : ¬ opponent.party.length ≠ 1 := by omega
    simp only [BattleCapture.attemptCapture, hop, hidx, hne, if_false, ite_false]
    rw [if_pos (Or.inr (by rfl))]

/-- Concrete wild target for the C1 witness: full-HP, catch rate 45. -/
def captureTargetW : Pokemon :=
  { instanceId := "c1"
    pokedexId := "Y0004"
    level := 5
    currentHp := 30
    maxHp := 30
    stats := ⟨10, 10, 10, 10, 10⟩
    calculatedStats := ⟨30, 10, 10, 10, 10, 10⟩
    statusCondition := none
    speciesCatchRate := some 45
    speciesTypes := ["火"] }

/-- The wild side of the C1 witness battle. -/
def captureOpponentW : Participant :=
  { id := "wild1", name := "Wild", party := [captureTargetW], activePokemon := captureTargetW }

/-- The player side of the C1 witness battle. -/
def capturePlayerPartW : Participant :=
  { id := "p1", name := "Player", party := [damagePokemonW], activePokemon := damagePokemonW }

/-- The C1 witness battle: a single-opponent wild encounter. -/
def captureBattleW : BattleState :=
  { participants := [capturePlayerPartW, captureOpponentW]
    turn := 1
    log := []
    status := BattleStatus.WAITING_FOR_INPUT }

/-- The C1 witness player: owns exactly one masterball. -/
def capturePlayerW : BattleCapture.Player :=
  { inventory := [⟨"masterball", 1⟩]
    team := []
    pcBox := []
    pokedex := ⟨[], []⟩ }

/-- Witness for `captureRate_amended_and_masterball` at the concrete wild
encounter: the claimed formula agrees (the floored rate is 15 ≥ 1) and the
masterball attempt succeeds. -/
theorem captureRate_amended_and_masterball_witness :
    BattleCalculations.calculateCaptureRate captureTargetW 1 1 =
      BattleCalculations.claimedCaptureProbability captureTargetW.maxHp captureTargetW.currentHp
        (BattleCalculations.effectiveCatchRate captureTargetW : ℚ) 1 1 ∧
    (BattleCapture.attemptCapture captureBattleW capturePlayerW "masterball" (1 / 2)).success =
      true := by
  have h := captureRate_amended_and_masterball captureTargetW 1 1 captureBattleW
    capturePlayerW (1 / 2) captureOpponentW 0 rfl rfl rfl
  refine ⟨h.2.1 ?_, h.2.2⟩
  norm_num [BattleCalculations.effectiveCatchRate, captureTargetW]

/-- Concrete target refuting C1 as frozen: max HP 10 at full HP with species
catch difficulty 1, plain ball, no status. -/
def lowRateTargetC1 : Pokemon :=
  { instanceId := "c1lo"
    pokedexId := "Y0099"
    level := 5
    currentHp := 10
    maxHp := 10
    stats := ⟨10, 10, 10, 10, 10⟩
    calculatedStats := ⟨10, 10, 10, 10, 10, 10⟩
    statusCondition := none
    speciesCatchRate := some 1
    speciesTypes := ["一般"] }

/-- Counterexample to C1 as frozen: the code probability is
`min(255, ⌊1/3⌋)/255 = 0`, while the claimed `min(255, max(1, ⌊1/3⌋))/255`
is `1/255`. -/
theorem captureProbability_clamp_counterexample :
    BattleCalculations.calculateCaptureRate lowRateTargetC1 1 1 = 0 ∧
    BattleCalculations.claimedCaptureProbability lowRateTargetC1.maxHp lowRateTargetC1.currentHp
      (BattleCalculations.effectiveCatchRate lowRateTargetC1 : ℚ) 1 1 = 1 / 255 ∧
    BattleCalculations.calculateCaptureRate lowRateTargetC1 1 1 ≠
      BattleCalculations.claimedCaptureProbability lowRateTargetC1.maxHp
        lowRateTargetC1.currentHp
        (BattleCalculations.effectiveCatchRate lowRateTargetC1 : ℚ) 1 1 := by
  refine ⟨?_, ?_, ?_⟩ <;>
    norm_num [BattleCalculations.calculateCaptureRate,
      BattleCalculations.claimedCaptureProbability,
      BattleCalculations.effectiveCatchRate, lowRateTargetC1]

namespace BattleCalculations

theorem effectiveCatchRate_set_hp (p : Pokemon) (c : ℤ) :
    effectiveCatchRate { p with currentHp := c } = effectiveCatchRate p := rfl

theorem calculateCaptureRate_anti_mono (p : Pokemon) (ball status : ℚ) (d1 d2 : ℤ)
    (hmax : 0 < p.maxHp) (hd : d1 ≤ d2)
    (hrate : 0 ≤ effectiveCatchRate p) (hball : 0 ≤ ball) (hstatus : 0 ≤ status) :
    calculateCaptureRate { p with currentHp := d2 } ball status ≤
      calculateCaptureRate { p with currentHp := d1 } ball status := by
  simp only [calculateCaptureRate, effectiveCatchRate_set_hp]
  have hM : (0 : ℚ) < 3 * (p.maxHp : ℚ) := by
    have : (0 : ℚ) < (p.maxHp : ℚ) := by exact_mod_cast hmax
    linarith
  have hr : (0 : ℚ) ≤ (effectiveCatchRate p : ℚ) := by exact_mod_cast hrate
  have h1 : (3 * (p.maxHp : ℚ) - 2 * (d2 : ℚ)) ≤ (3 * (p.maxHp : ℚ) - 2 * (d1 : ℚ)) := by
    have : (d1 : ℚ) ≤ (d2 : ℚ) := by exact_mod_cast hd
    linarith
  have hnum : (3 * (p.maxHp : ℚ) - 2 * (d2 : ℚ)) * (effectiveCatchRate p : ℚ) * ball * status ≤
      (3 * (p.maxHp : ℚ) - 2 * (d1 : ℚ)) * (effectiveCatchRate p : ℚ) * ball * status :=
    mul_le_mul_of_nonneg_right
      (mul_le_mul_of_nonneg_right (mul_le_mul_of_nonneg_right h1 hr) hball) hstatus
  have hA : (3 * (p.maxHp : ℚ) - 2 * (d2 : ℚ)) * (effectiveCatchRate p : ℚ) * ball * status /
        (3 * (p.maxHp : ℚ)) ≤
      (3 * (p.maxHp : ℚ) - 2 * (d1 : ℚ)) * (effectiveCatchRate p : ℚ) * ball * status /
        (3 * (p.maxHp : ℚ)) := (div_le_div_iff_of_pos_right hM).mpr hnum
  have hfloor := Int.floor_le_floor hA
  have hmin : (min 255 (Int.floor ((3 * (p.maxHp : ℚ) - 2 * (d2 : ℚ)) *
        (effectiveCatchRate p : ℚ) * ball * status / (3 * (p.maxHp : ℚ)))) : ℤ) ≤
      min 255 (Int.floor ((3 * (p.maxHp : ℚ) - 2 * (d1 : ℚ)) *
        (effectiveCatchRate p : ℚ) * ball * status / (3 * (p.maxHp : ℚ)))) := by
    omega
  have hcast : ((min 255 (Int.floor ((3 * (p.maxHp : ℚ) - 2 * (d2 : ℚ)) *
        (effectiveCatchRate p : ℚ) * ball * status / (3 * (p.maxHp : ℚ)))) : ℤ) : ℚ) ≤
      ((min 255 (Int.floor ((3 * (p.maxHp : ℚ) - 2 * (d1 : ℚ)) *
        (effectiveCatchRate p : ℚ) * ball * status / (3 * (p.maxHp : ℚ)))) : ℤ) : ℚ) := by
    exact_mod_cast hmin
  exact (div_le_div_iff_of_pos_right (by norm_num : (0 : ℚ) < 255)).mpr hcast

/-- **C6** (amended): with max HP positive and non-negative catch-rate, ball
and status modifiers held fixed, the capture probability of
`calculateCaptureRate` is monotonically non-increasing in the target's
current HP; the probability at 1 HP is at least the probability at full HP,
and strictly greater when additionally `3·maxHp ≤ 2·K·(maxHp − 1)` and
`⌊K/3⌋ ≤ 254` for `K = catchRate·ball·status` (without such side conditions
the floor and the 255 cap can make the two ends equal). -/
theorem calculateCaptureRate_hp_monotone (p : Pokemon) (ball status : ℚ) (c1 c2 : ℤ)
    (hmax : 0 < p.maxHp) (hc : c1 ≤ c2)
    (hrate : 0 ≤ effectiveCatchRate p) (hball : 0 ≤ ball) (hstatus : 0 ≤ status) :
    (calculateCaptureRate { p with currentHp := c2 } ball status ≤
      calculateCaptureRate { p with currentHp := c1 } ball status) ∧
    (calculateCaptureRate { p with currentHp := p.maxHp } ball status ≤
      calculateCaptureRate { p with currentHp := 1 } ball status) ∧
    (3 * (p.maxHp : ℚ) ≤
        2 * ((effectiveCatchRate p : ℚ) * ball * status) * ((p.maxHp : ℚ) - 1) →
      Int.floor ((effectiveCatchRate p : ℚ) * ball * status / 3) ≤ 254 →
      calculateCaptureRate { p with currentHp := p.maxHp } ball status <
        calculateCaptureRate { p with currentHp := 1 } ball status) := by
  refine ⟨calculateCaptureRate_anti_mono p ball status c1 c2 hmax hc hrate hball hstatus,
    calculateCaptureRate_anti_mono p ball status 1 p.maxHp hmax (by omega) hrate hball hstatus,
    ?_⟩
  intro hgap hcap
  simp only [calculateCaptureRate, effectiveCatchRate_set_hp]
  have hMQ : (0 : ℚ) < (p.maxHp : ℚ) := by exact_mod_cast hmax
  have hM : (0 : ℚ) < 3 * (p.maxHp : ℚ) := by linarith
  set K : ℚ := (effectiveCatchRate p : ℚ) * ball * status with hK
  have hAM : (3 * (p.maxHp : ℚ) - 2 * ((p.maxHp : ℤ) : ℚ)) * (effectiveCatchRate p : ℚ) *
      ball * status / (3 * (p.maxHp : ℚ)) = K / 3 := by
    rw [hK]
    field_simp
    ring
  have hA1ge : K / 3 + 1 ≤ (3 * (p.maxHp : ℚ) - 2 * ((1 : ℤ) : ℚ)) *
      (effectiveCatchRate p : ℚ) * ball * status / (3 * (p.maxHp : ℚ)) := by
    rw [← sub_nonneg]
    have hexp : (3 * (p.maxHp : ℚ) - 2 * ((1 : ℤ) : ℚ)) * (effectiveCatchRate p : ℚ) *
        ball * status / (3 * (p.maxHp : ℚ)) - (K / 3 + 1) =
        (2 * K * ((p.maxHp : ℚ) - 1) - 3 * (p.maxHp : ℚ)) / (3 * (p.maxHp : ℚ)) := by
      rw [hK]
      field_simp
      ring
    rw [hexp]
    apply div_nonneg _ (le_of_lt hM)
    linarith
  have hfM : Int.floor ((3 * (p.maxHp : ℚ) - 2 * ((p.maxHp : ℤ) : ℚ)) *
      (effectiveCatchRate p : ℚ) * ball * status / (3 * (p.maxHp : ℚ))) ≤ 254 := by
    rw [hAM]
    exact hcap
  have hf1 : Int.floor ((3 * (p.maxHp : ℚ) - 2 * ((p.maxHp : ℤ) : ℚ)) *
        (effectiveCatchRate p : ℚ) * ball * status / (3 * (p.maxHp : ℚ))) + 1 ≤
      Int.floor ((3 * (p.maxHp : ℚ) - 2 * ((1 : ℤ) : ℚ)) * (effectiveCatchRate p : ℚ) *
        ball * status / (3 * (p.maxHp : ℚ))) := by
    rw [hAM]
    have := Int.floor_le_floor hA1ge
    rw [Int.floor_add_one] at this
    exact this
  have hmin : (min 255 (Int.floor ((3 * (p.maxHp : ℚ) - 2 * ((p.maxHp : ℤ) : ℚ)) *
        (effectiveCatchRate p : ℚ) * ball * status / (3 * (p.maxHp : ℚ)))) : ℤ) <
      min 255 (Int.floor ((3 * (p.maxHp : ℚ) - 2 * ((1 : ℤ) : ℚ)) *
        (effectiveCatchRate p : ℚ) * ball * status / (3 * (p.maxHp : ℚ)))) := by
    omega
  have hcast : ((min 255 (Int.floor ((3 * (p.maxHp : ℚ) - 2 * ((p.maxHp : ℤ) : ℚ)) *
        (effectiveCatchRate p : ℚ) * ball * status / (3 * (p.maxHp : ℚ)))) : ℤ) : ℚ) <
      ((min 255 (Int.floor ((3 * (p.maxHp : ℚ) - 2 * ((1 : ℤ) : ℚ)) *
        (effectiveCatchRate p : ℚ) * ball * status / (3 * (p.maxHp : ℚ)))) : ℤ) : ℚ) := by
    exact_mod_cast hmin
  exact (div_lt_div_iff_of_pos_right (by norm_num : (0 : ℚ) < 255)).mpr hcast

end BattleCalculations

/-- Witness for `calculateCaptureRate_hp_monotone`: catch rate 45, plain
ball, healthy status, max HP 30 — the probability at 1 HP strictly exceeds
the probability at full HP. -/
theorem calculateCaptureRate_hp_monotone_witness :
    BattleCalculations.calculateCaptureRate { captureTargetW with currentHp := 30 } 1 1 ≤
      BattleCalculations.calculateCaptureRate { captureTargetW with currentHp := 10 } 1 1 ∧
    BattleCalculations.calculateCaptureRate
        { captureTargetW with currentHp := captureTargetW.maxHp } 1 1 <
      BattleCalculations.calculateCaptureRate { captureTargetW with currentHp := 1 } 1 1 := by
  have h := BattleCalculations.calculateCaptureRate_hp_monotone captureTargetW 1 1 10 30
    (by norm_num [captureTargetW]) (by norm_num)
    (by norm_num [BattleCalculations.effectiveCatchRate, captureTargetW])
    (by norm_num) (by norm_num)
  refine ⟨h.1, h.2.2 ?_ ?_⟩
  · norm_num [BattleCalculations.effectiveCatchRate, captureTargetW]
  · norm_num [BattleCalculations.effectiveCatchRate, captureTargetW]

/-- Concrete target refuting the strict half of C6 as frozen: max HP 2 and
catch difficulty 1 floor both capture rates to 0, so the probability at 1 HP
equals the probability at full HP. -/
def tinyTargetC6 : Pokemon :=
  { instanceId := "c6"
    pokedexId := "Y0098"
    level := 3
    currentHp := 2
    maxHp := 2
    stats := ⟨5, 5, 5, 5, 5⟩
    calculatedStats := ⟨2, 5, 5, 5, 5, 5⟩
    statusCondition := none
    speciesCatchRate := some 1
    speciesTypes := ["一般"] }

/-- Counterexample to C6 as frozen: for this target the capture probability
at 1 HP is not strictly greater than at full HP — both are 0. -/
theorem captureRate_not_strict_counterexample :
    BattleCalculations.calculateCaptureRate { tinyTargetC6 with currentHp := 1 } 1 1 =
      BattleCalculations.calculateCaptureRate
        { tinyTargetC6 with currentHp := tinyTargetC6.maxHp } 1 1 ∧
    BattleCalculations.calculateCaptureRate { tinyTargetC6 with currentHp := 1 } 1 1 = 0 := by
  constructor <;>
    norm_num [BattleCalculations.calculateCaptureRate,
      BattleCalculations.effectiveCatchRate, tinyTargetC6]

namespace BattleCapture

/-- **C10**: in a wild-encounter battle, when the player owns a stack of the
requested ball and the capture fails, the returned player update decrements
exactly that stack by one (removing it when it reaches zero) and leaves the
team, the PC box and the pokédex unchanged; and when the player owns no such
ball the attempt is rejected with the player state unchanged and no ball
consumed. -/
theorem attemptCapture_failure_frame (battle : BattleState) (player : Player)
    (ballType : String) (rand : ℚ) (opponent : Participant) (idx : ℕ)
    (hop : battle.participants.get? 1 = some opponent)
    (hwild : opponent.party.length = 1)
    (hidx : player.inventory.findIdx?
      (fun item => jsToLowerCase item.itemId == jsToLowerCase ballType) = some idx)
    (hfail : (attemptCapture battle player ballType rand).success = false) :
    ((attemptCapture battle player ballType rand).updatedPlayerState.team = player.team ∧
     (attemptCapture battle player ballType rand).updatedPlayerState.pcBox = player.pcBox ∧
     (attemptCapture battle player ballType rand).updatedPlayerState.pokedex = player.pokedex ∧
     (attemptCapture battle player ballType rand).updatedPlayerState.inventory =
       (if 1 < ((player.inventory.get? idx).getD ⟨"", 0⟩).quantity then
          player.inventory.set idx
            { (player.inventory.get? idx).getD ⟨"", 0⟩ with
                quantity := ((player.inventory.get? idx).getD ⟨"", 0⟩).quantity - 1 }
        else player.inventory.eraseIdx idx)) ∧
    (∀ p2 : Player,
      p2.inventory.findIdx?
        (fun item => jsToLowerCase item.itemId == jsToLowerCase ballType) = none →
      attemptCapture battle p2 ballType rand = ⟨p2, false⟩) := by
  have hne : ¬ opponent.party.length ≠ 1 := by omega
  constructor
  · simp only [attemptCapture, hop, hidx, hne, if_false, ite_false] at hfail ⊢
    by_cases hcond : rand < BattleCalculations.calculateCaptureRate opponent.activePokemon
        ((ballCaptureBonuses (jsToLowerCase ballType)).getD 1)
        (statusCaptureBonuses opponent.activePokemon.statusCondition) ∨
        jsToLowerCase ballType = "masterball"
    · rw [if_pos hcond] at hfail
      exact absurd hfail (by simp)
    · rw [if_neg hcond]
      exact ⟨rfl, rfl, rfl, rfl⟩
  · intro p2 h2
    simp only [attemptCapture, hop, h2, hne, if_false, ite_false]

end BattleCapture

/-- The C10 witness player: two pokeballs, one team member, an empty PC box
and a pokédex with one recorded species. -/
def framePlayerW : BattleCapture.Player :=
  { inventory := [⟨"pokeball", 2⟩]
    team := [damagePokemonW]
    pcBox := []
    pokedex := ⟨["Y0010"], ["Y0010"]⟩ }

/-- Witness for `attemptCapture_failure_frame`: a failing pokeball throw
(random draw 1, above any capture probability) consumes one pokeball and
leaves team, PC box and pokédex unchanged. -/
theorem attemptCapture_failure_frame_witness :
    (BattleCapture.attemptCapture captureBattleW framePlayerW "pokeball" 1).updatedPlayerState.team =
      framePlayerW.team ∧
    (BattleCapture.attemptCapture captureBattleW framePlayerW "pokeball" 1).updatedPlayerState.pokedex =
      framePlayerW.pokedex ∧
    (BattleCapture.attemptCapture captureBattleW framePlayerW "pokeball" 1).updatedPlayerState.inventory =
      [⟨"pokeball", 1⟩] := by
  have hfail : (BattleCapture.attemptCapture captureBattleW framePlayerW "pokeball" 1).success =
      false := by
    have hrate : BattleCalculations.calculateCaptureRate captureTargetW 1 1 = 15 / 255 := by
      norm_num [BattleCalculations.calculateCaptureRate,
        BattleCalculations.effectiveCatchRate, captureTargetW]
    have hfind : List.findIdx? (fun item => jsToLowerCase item.itemId == jsToLowerCase "pokeball")
        ([⟨"pokeball", 2⟩] : List BattleCapture.InventoryItem) = some 0 := rfl
    have hball : BattleCapture.ballCaptureBonuses (jsToLowerCase "pokeball") = some 1 := rfl
    have hstat : BattleCapture.statusCaptureBonuses captureTargetW.statusCondition = 1 := rfl
    have hmb : (jsToLowerCase "pokeball" = "masterball") = False := by
      simp only [eq_iff_iff, iff_false]
      decide
    have hget : captureBattleW.participants.get? 1 = some captureOpponentW := rfl
    have hlen : captureOpponentW.party.length = 1 := rfl
    have hact : captureOpponentW.activePokemon = captureTargetW := rfl
    have hinv : framePlayerW.inventory = [⟨"pokeball", 2⟩] := rfl
    simp only [BattleCapture.attemptCapture, hget, hlen, hact, hinv, hfind, hball, hmb,
      Option.getD_some, or_false, ne_eq, hstat, hrate]
    rw [if_neg (by norm_num : ¬ (1 : ℚ) < 15 / 255)]
    rfl
  have h := BattleCapture.attemptCapture_failure_frame captureBattleW framePlayerW "pokeball" 1
    captureOpponentW 0 rfl rfl rfl hfail
  refine ⟨h.1.1, h.1.2.2.1, ?_⟩
  rw [h.1.2.2.2]
  norm_num [framePlayerW, List.get?, List.set]

namespace TrainingManager

/-- The escape-odds formula of `attemptToRun` in src/game/trainingManager.ts:
`floor((playerSpeed · 128) / wildSpeed + 30) % 256` (the JS `%` on the
non-negative operands produced here coincides with `Int.emod`). -/
def escapeOdds (playerSpeed wildSpeed : ℤ) : ℤ :=
  (Int.floor (((playerSpeed : ℚ) * 128) / (wildSpeed : ℚ) + 30)) % 256

/-- The result shape of the battle actions of src/game/trainingManager.ts. -/
structure ActionResult where
  updatedBattle : BattleState
  messages : List String
deriving DecidableEq, Repr

/-- `attemptToRun` from src/game/trainingManager.ts, with the random byte
`Math.floor(Math.random() · 256)` passed in as `randomValue`.  A non-player
participant index, a battle without exactly two participants or an opposing
party with more than one member is rejected (the early returns set the
status back to awaiting input and touch neither the log nor the turn);
otherwise the run succeeds iff the byte is below the escape odds, and on
failure the turn counter advances and the battle returns to awaiting
input. -/
def attemptToRun (battle : BattleState) (participantIndex : ℕ) (randomValue : ℤ) : ActionResult :=
  if participantIndex ≠ 0 then
    ⟨{ battle with status := BattleStatus.WAITING_FOR_INPUT }, ["只有玩家可以尝试逃跑。"]⟩
  else if battle.participants.length ≠ 2 then
    ⟨{ battle with status := BattleStatus.WAITING_FOR_INPUT }, ["你不能从训练家战斗中逃跑！"]⟩
  else
    match battle.participants.get? 0, battle.participants.get? 1 with
    | some playerParticipant, some wildParticipant =>
        if 1 < wildParticipant.party.length then
          ⟨{ battle with status := BattleStatus.WAITING_FOR_INPUT },
            ["你不能从训练家战斗中逃跑！"]⟩
        else
          if randomValue < escapeOdds playerParticipant.activePokemon.stats.speed
              wildParticipant.activePokemon.stats.speed then
            ⟨{ battle with
                status := BattleStatus.FLED
                log := battle.log ++ ["成功逃跑了！"] }, ["成功逃跑了！"]⟩
          else
            ⟨{ battle with
                turn := battle.turn + 1
                status := BattleStatus.WAITING_FOR_INPUT
                log := battle.log ++ ["逃跑失败！"] }, ["逃跑失败！"]⟩
    | _, _ =>
        ⟨{ battle with status := BattleStatus.WAITING_FOR_INPUT },
          ["你不能从训练家战斗中逃跑！"]⟩

/-- `switchPokemon` from src/game/trainingManager.ts, with the target index
as the raw (possibly negative) integer supplied by the command layer.  The
JS reference equality `participant.activePokemon === participant.party[i]`
is modelled as structural equality, which coincides with it whenever the
active reference is drawn from the party list (the invariant the battle
constructors establish); the interpolated message strings of the source are
abbreviated to fixed texts. -/
def switchPokemon (battle : BattleState) (participantIndex : ℕ)
    (pokemonIndex : ℤ) : ActionResult :=
  match battle.participants.get? participantIndex with
  | none => ⟨{ battle with status := BattleStatus.WAITING_FOR_INPUT }, ["无效的参与者索引。"]⟩
  | some participant =>
      if pokemonIndex < 0 ∨ (participant.party.length : ℤ) ≤ pokemonIndex then
        ⟨{ battle with status := BattleStatus.WAITING_FOR_INPUT }, ["无效的宝可梦索引。"]⟩
      else
        let target := (participant.party.get? pokemonIndex.toNat).getD participant.activePokemon
        if target = participant.activePokemon then
          ⟨{ battle with status := BattleStatus.WAITING_FOR_INPUT }, ["已经在场上了！"]⟩
        else if target.currentHp ≤ 0 then
          ⟨{ battle with status := BattleStatus.WAITING_FOR_INPUT },
            ["已经失去战斗能力，无法上场！"]⟩
        else
          ⟨{ battle with
              participants := battle.participants.set participantIndex
                { participant with activePokemon := target }
              turn := battle.turn + 1
              status := BattleStatus.WAITING_FOR_INPUT
              log := battle.log ++ ["换上了新宝可梦！"] },
            ["换上了新宝可梦！"]⟩

/-- **C8**: a RUN action is permitted only against a single-opponent wild
encounter — against a multi-creature opposing party it is rejected with
roster and turn unchanged — and, when permitted, it succeeds (status FLED)
iff the uniform random byte is below
`floor(playerSpeed·128/wildSpeed + 30) mod 256`; a failed attempt consumes
the turn and returns the battle to awaiting input with the participants
untouched (the opponent does not act again). -/
theorem attemptToRun_spec (battle : BattleState) (randomValue : ℤ)
    (playerParticipant wildParticipant : Participant)
    (hparts : battle.participants = [playerParticipant, wildParticipant])
    (hwild : wildParticipant.party.length = 1)
    (hpspeed : 0 ≤ playerParticipant.activePokemon.stats.speed)
    (hwspeed : 0 < wildParticipant.activePokemon.stats.speed) :
    ((attemptToRun battle 0 randomValue).updatedBattle.status = BattleStatus.FLED ↔
      randomValue < escapeOdds playerParticipant.activePokemon.stats.speed
        wildParticipant.activePokemon.stats.speed) ∧
    (¬ randomValue < escapeOdds playerParticipant.activePokemon.stats.speed
        wildParticipant.activePokemon.stats.speed →
      (attemptToRun battle 0 randomValue).updatedBattle.status =
          BattleStatus.WAITING_FOR_INPUT ∧
      (attemptToRun battle 0 randomValue).updatedBattle.turn = battle.turn + 1 ∧
      (attemptToRun battle 0 randomValue).updatedBattle.participants = battle.participants) ∧
    (∀ (b2 : BattleState) (i2 : ℕ) (w2 : Participant),
      b2.participants.get? 1 = some w2 → 1 < w2.party.length →
      (attemptToRun b2 i2 randomValue).updatedBattle.status = BattleStatus.WAITING_FOR_INPUT ∧
      (attemptToRun b2 i2 randomValue).updatedBattle.turn = b2.turn ∧
      (attemptToRun b2 i2 randomValue).updatedBattle.participants = b2.participants) := by
  have hlen : ¬ battle.participants.length ≠ 2 := by rw [hparts]; simp
  have hget0 : battle.participants.get? 0 = some playerParticipant := by rw [hparts]; rfl
  have hget1 : battle.participants.get? 1 = some wildParticipant := by rw [hparts]; rfl
  have hnot1 : ¬ 1 < wildParticipant.party.length := by omega
  refine ⟨?_, ?_, ?_⟩
  · simp only [attemptToRun, ne_eq, not_true_eq_false, if_false, hlen, hget0, hget1,
      hnot1, ite_false]
    by_cases hr : randomValue < escapeOdds playerParticipant.activePokemon.stats.speed
        wildParticipant.activePokemon.stats.speed
    · simp [hr]
    · simp [hr]
  · intro hr
    simp only [attemptToRun, ne_eq, not_true_eq_false, if_false, hlen, hget0, hget1,
      hnot1, ite_false, if_neg hr]
    exact ⟨trivial, trivial, trivial⟩
  · intro b2 i2 w2 hg2 hw2
    by_cases hi2 : i2 ≠ 0
    · simp only [attemptToRun, if_pos hi2]
      exact ⟨trivial, trivial, trivial⟩
    · by_cases hl2 : b2.participants.length ≠ 2
      · simp only [attemptToRun, hi2, if_false, ite_false, if_pos hl2]
        exact ⟨trivial, trivial, trivial⟩
      · have hl2e : b2.participants.length = 2 := by omega
        obtain ⟨a, b, hab⟩ := List.length_eq_two.mp hl2e
        have hga : b2.participants.get? 0 = some a := by rw [hab]; rfl
        have hgb : b2.participants.get? 1 = some b := by rw [hab]; rfl
        have hbw : b = w2 := by
          rw [hgb] at hg2
          exact Option.some.inj hg2
        subst hbw
        simp only [attemptToRun, hi2, if_false, ite_false, hl2, hga, hgb, if_pos hw2]
        exact ⟨trivial, trivial, trivial⟩

/-- **C9**: a SWITCH whose target index is out of range, is the currently
active instance, or holds a fainted roster member is rejected with a
descriptive message, and the battle roster (hence active instance and HP)
and the turn counter are left unchanged. -/
theorem switchPokemon_invalid_rejected (battle : BattleState) (participantIndex : ℕ)
    (pokemonIndex : ℤ) (participant : Participant)
    (hpart : battle.participants.get? participantIndex = some participant)
    (hbad : pokemonIndex < 0 ∨ (participant.party.length : ℤ) ≤ pokemonIndex ∨
      (participant.party.get? pokemonIndex.toNat).getD participant.activePokemon =
        participant.activePokemon ∨
      ((participant.party.get? pokemonIndex.toNat).getD participant.activePokemon).currentHp ≤ 0) :
    (switchPokemon battle participantIndex pokemonIndex).updatedBattle.participants =
      battle.participants ∧
    (switchPokemon battle participantIndex pokemonIndex).updatedBattle.turn = battle.turn ∧
    (switchPokemon battle participantIndex pokemonIndex).updatedBattle.log = battle.log ∧
    (switchPokemon battle participantIndex pokemonIndex).messages ≠ [] := by
  simp only [switchPokemon, hpart]
  by_cases h1 : pokemonIndex < 0 ∨ (participant.party.length : ℤ) ≤ pokemonIndex
  · rw [if_pos h1]
    exact ⟨rfl, rfl, rfl, by simp⟩
  · rw [if_neg h1]
    by_cases h2 : (participant.party.get? pokemonIndex.toNat).getD participant.activePokemon =
        participant.activePokemon
    · rw [if_pos h2]
      exact ⟨rfl, rfl, rfl, by simp⟩
    · rw [if_neg h2]
      have h3 : ((participant.party.get? pokemonIndex.toNat).getD
          participant.activePokemon).currentHp ≤ 0 := by tauto
      rw [if_pos h3]
      exact ⟨rfl, rfl, rfl, by simp⟩

end TrainingManager

/-- Witness for `attemptToRun_spec` at the concrete wild encounter: player
speed 20 against wild speed 10 gives escape odds
`floor(2560/10 + 30) % 256 = 30`, so the byte 255 fails and the turn is
consumed. -/
theorem attemptToRun_spec_witness :
    (TrainingManager.attemptToRun captureBattleW 0 255).updatedBattle.status =
        BattleStatus.WAITING_FOR_INPUT ∧
    (TrainingManager.attemptToRun captureBattleW 0 255).updatedBattle.turn =
        captureBattleW.turn + 1 ∧
    (TrainingManager.attemptToRun captureBattleW 0 255).updatedBattle.participants =
        captureBattleW.participants := by
  have h := TrainingManager.attemptToRun_spec captureBattleW 255 capturePlayerPartW
    captureOpponentW rfl rfl (by norm_num [capturePlayerPartW, damagePokemonW])
    (by norm_num [captureOpponentW, captureTargetW])
  refine h.2.1 ?_
  have hodds : TrainingManager.escapeOdds capturePlayerPartW.activePokemon.stats.speed
      captureOpponentW.activePokemon.stats.speed = 30 := by
    have h1 : capturePlayerPartW.activePokemon.stats.speed = 20 := rfl
    have h2 : captureOpponentW.activePokemon.stats.speed = 10 := rfl
    rw [h1, h2]
    norm_num [TrainingManager.escapeOdds]
  rw [hodds]
  norm_num

/-- Witness for `switchPokemon_invalid_rejected`: switching participant 0 of
the concrete battle to index 0 — the active instance's own slot — is
rejected and changes nothing. -/
theorem switchPokemon_invalid_rejected_witness :
    (TrainingManager.switchPokemon captureBattleW 0 0).updatedBattle.participants =
      captureBattleW.participants ∧
    (TrainingManager.switchPokemon captureBattleW 0 0).updatedBattle.turn =
      captureBattleW.turn ∧
    (TrainingManager.switchPokemon captureBattleW 0 0).messages ≠ [] := by
  have h := TrainingManager.switchPokemon_invalid_rejected captureBattleW 0 0
    capturePlayerPartW rfl (Or.inr (Or.inr (Or.inl rfl)))
  exact ⟨h.1, h.2.1, h.2.2.2⟩
